import Mathlib

/-!
Verification development for the council-sim backend: a shallow embedding of
the turn-orchestration core (debate engine, transcript/context builder,
simulation manager, stream events, scoring tool, analysis fallback chain)
together with theorems about it.

Conventions of the embedding:
* Python strings are Lean `String`s; slicing works on code points (`String.data`).
* Python floats are modelled as exact rationals (`ℚ`).
* The external generative service (`client.messages.stream`) is an oracle
  parameter producing the fragment stream for a turn.
* `uuid.uuid4()` turn ids are modelled as fresh natural-number indices.
* `asyncio` callbacks are modelled by accumulating an explicit event list;
  within one session the code awaits every call in order, so the run is a
  deterministic sequential function of its inputs.
-/

/-- `PersonaRole` from `backend/models/persona.py`. -/
inductive PersonaRole where
  | moderator
  | petitioner
  | resident
  | council_member
deriving DecidableEq

/-- The `.value` of a `PersonaRole` (the string enum payload). -/
def PersonaRole.value : PersonaRole → String
  | .moderator => "moderator"
  | .petitioner => "petitioner"
  | .resident => "resident"
  | .council_member => "council_member"

/-- `Persona` from `backend/models/persona.py`, restricted to the fields the
debate engine and transcript read (id, name, role, system_prompt). -/
structure Persona where
  id : String
  name : String
  role : PersonaRole
  system_prompt : String
deriving DecidableEq

/-- `DebatePhase` from `backend/models/debate.py`. -/
inductive DebatePhase where
  | opening
  | public_comment
  | rebuttal
  | council_qa
  | deliberation
deriving DecidableEq

/-- The `.value` of a `DebatePhase` (the string enum payload). -/
def DebatePhase.value : DebatePhase → String
  | .opening => "opening"
  | .public_comment => "public_comment"
  | .rebuttal => "rebuttal"
  | .council_qa => "council_qa"
  | .deliberation => "deliberation"

/-- `DebateTurn` from `backend/models/debate.py`; `id` models the generated
uuid as a fresh index, the timestamp field is not modelled. -/
structure DebateTurn where
  id : Nat
  phase : DebatePhase
  persona_id : String
  persona_name : String
  persona_role : String
  content : String
deriving DecidableEq

/-- `SimulationInput` from `backend/models/simulation.py`, restricted to the
fields the engine reads. -/
structure SimulationInput where
  city_name : String
  state : String
  proposal_details : String
deriving DecidableEq

/-- `PHASE_DESCRIPTIONS` from `backend/debate/transcript.py`: total on the
phase enum, so the `dict.get(phase, phase.value)` default never fires. -/
def PHASE_DESCRIPTIONS : DebatePhase → String
  | .opening => "Opening Statements"
  | .public_comment => "Public Comment Period"
  | .rebuttal => "Petitioner Rebuttal"
  | .council_qa => "Council Questions & Answers"
  | .deliberation => "Deliberation & Vote"

/-- `PHASE_INSTRUCTIONS` from `backend/debate/transcript.py`: the nested dict
lookup `PHASE_INSTRUCTIONS.get(phase, {}).get(persona.role)`. -/
def PHASE_INSTRUCTIONS : DebatePhase → PersonaRole → Option String
  | .opening, .moderator => some "Open the meeting. State the agenda: a public hearing on the proposed data center. Introduce the format: petitioner presentation, public comment, rebuttal, council questions, and deliberation. Be brief and procedural."
  | .opening, .petitioner => some "Present your proposal to the council and residents. Cover: what you're proposing, key benefits (jobs, tax revenue), and your commitment to the community. Be compelling but concise. This is your opening — make it count."
  | .public_comment, .resident => some "This is your chance to address the council. Speak your concern clearly and personally. Reference your life in this city. Be specific — vague complaints are easy to dismiss. You have 3-5 sentences."
  | .rebuttal, .petitioner => some "Address the specific concerns raised by the residents. Respond to each person's points with data and concrete commitments. Be empathetic — acknowledge their feelings while providing factual rebuttals. Don't be defensive."
  | .council_qa, .council_member => some "Ask pointed questions that the residents would want answered. Push for specifics — numbers, timelines, guarantees. Challenge vague promises. You represent all constituents."
  | .council_qa, .petitioner => some "Answer the council member's questions directly and specifically. If you don't know something, say so. Offer to provide additional documentation or studies."
  | .deliberation, .moderator => some "Summarize the key points raised during the hearing. Note the strongest arguments from both sides. Do NOT give your personal opinion — summarize fairly."
  | .deliberation, .council_member => some "State your assessment based on what you've heard. What concerns remain unaddressed? What commitments do you want formalized? Give your advisory recommendation — approve, deny, or table with conditions."
  | _, _ => none

/-- The `Transcript` accumulator from `backend/debate/transcript.py`. -/
structure Transcript where
  proposal_summary : String
  city_context : String
  turns : List DebateTurn
  current_phase : DebatePhase

/-- `Transcript.add_turn`. -/
def Transcript.add_turn (t : Transcript) (turn : DebateTurn) : Transcript :=
  { t with turns := t.turns ++ [turn] }

/-- `Transcript.set_phase`. -/
def Transcript.set_phase (t : Transcript) (phase : DebatePhase) : Transcript :=
  { t with current_phase := phase }

/-- `Transcript._truncate`: Python `text[:max_length - 3] + "..."` slices code
points, modelled on `String.data`. -/
def Transcript.truncate (text : String) (maxLength : Nat) : String :=
  if text.length ≤ maxLength then text
  else String.mk (text.data.take (maxLength - 3)) ++ "..."

/-- One rendered line of the prior-turn listing inside
`Transcript._build_meeting_context`. -/
def render_turn_line (turn : DebateTurn) : String :=
  "  " ++ turn.persona_name ++ " (" ++ turn.persona_role ++ "): " ++
    Transcript.truncate turn.content 300

/-- `Transcript._build_meeting_context`: the parts list joined with newlines. -/
def Transcript.build_meeting_context (t : Transcript) (persona : Persona)
    (phase : DebatePhase) : String :=
  let parts :=
    ["MEETING CONTEXT: Public hearing on a proposed data center in " ++ t.city_context,
     "PROPOSAL: " ++ t.proposal_summary,
     ""]
    ++ (if t.turns.isEmpty then
          ["This is the beginning of the meeting. No one has spoken yet.", ""]
        else
          ("WHAT HAS BEEN SAID SO FAR IN THIS MEETING:" :: t.turns.map render_turn_line) ++ [""])
    ++ ["CURRENT PHASE: " ++ PHASE_DESCRIPTIONS phase]
    ++ (match PHASE_INSTRUCTIONS phase persona.role with
        | some instruction => ["YOUR INSTRUCTIONS: " ++ instruction]
        | none => [])
    ++ ["", "Speak now as " ++ persona.name ++ ". Stay in character. Be specific and grounded."]
  String.intercalate "\n" parts

/-- A chat message dict `\x7b"role": ..., "content": ...\x7d` as sent to the API. -/
structure ChatMessage where
  role : String
  content : String
deriving DecidableEq

/-- `Transcript.build_context_for_turn`: the `(messages, system_prompt)` pair. -/
def Transcript.build_context_for_turn (t : Transcript) (persona : Persona)
    (phase : DebatePhase) : List ChatMessage × String :=
  let meeting_context := t.build_meeting_context persona phase
  ([{ role := "user", content := meeting_context }], persona.system_prompt)

/-- The weights dict of `compute_approval_score_tool`
(`backend/agents/tools/scoring.py`), floats as exact rationals. -/
def score_weights : List (String × ℚ) :=
  [("petitioner_argument_quality", 25/100),
   ("opposition_strength", -(20/100)),
   ("council_receptiveness", 20/100),
   ("economic_benefit_clarity", 15/100),
   ("environmental_mitigation", 10/100),
   ("community_benefit_offered", 10/100)]

/-- The factor arguments of the scoring tool: a dict of floats, read with
`args.get(factor, 5.0)`. -/
def ScoreArgs : Type := String → Option ℚ

/-- The `raw_score` accumulation loop of `compute_approval_score_tool`:
baseline 50, plus `(value - 5.0) * weight * 10` per factor. -/
def raw_approval_score (args : ScoreArgs) : ℚ :=
  score_weights.foldl (fun acc fw => acc + ((args fw.1).getD 5 - 5) * fw.2 * 10) 50

/-- The final score of `compute_approval_score_tool`:
`max(0.0, min(100.0, raw_score))`. -/
def compute_approval_score (args : ScoreArgs) : ℚ :=
  max 0 (min 100 (raw_approval_score args))

/-- The label thresholds of `compute_approval_score_tool`. -/
def approval_score_label (score : ℚ) : String :=
  if 71 ≤ score then "Likely Approved"
  else if 51 ≤ score then "Uncertain - Leaning Approve"
  else if 31 ≤ score then "Uncertain - Leaning Deny"
  else "Likely Denied"

/-- `ArgumentSummary` from `backend/models/analysis.py`. -/
structure ArgumentSummary where
  side : String
  argument : String
  strength : String
  relevant_data : String
deriving DecidableEq

/-- `RecommendedRebuttal` from `backend/models/analysis.py`. -/
structure RecommendedRebuttal where
  concern : String
  rebuttal : String
  supporting_data : String
  effectiveness : String
deriving DecidableEq

/-- `AnalysisResult` from `backend/models/analysis.py`; `approval_score` is a
float (modelled as `ℚ`) that pydantic validates to lie in `[0, 100]`. -/
structure AnalysisResult where
  approval_score : ℚ
  approval_label : String
  approval_reasoning : String
  key_arguments : List ArgumentSummary
  recommended_rebuttals : List RecommendedRebuttal
  strongest_opposition_point : String
  weakest_opposition_point : String
  overall_assessment : String
deriving DecidableEq

/-- A decoded JSON value, the output type of `json.loads`. -/
inductive JValue where
  | jnull
  | jbool (b : Bool)
  | jnum (q : ℚ)
  | jstr (s : String)
  | jarr (xs : List JValue)
  | jobj (fields : List (String × JValue))

/-- Python `dict.get(key)` on a decoded JSON object: `json.loads` builds the
dict left to right, so a repeated key keeps its last value. -/
def jGet : List (String × JValue) → String → Option JValue
  | [], _ => none
  | kv :: rest, key =>
    match jGet rest key with
    | some v => some v
    | none => if kv.1 = key then some kv.2 else none

/-- Python `dict.get(key, default)`. -/
def jGetD (fields : List (String × JValue)) (key : String) (dflt : JValue) : JValue :=
  (jGet fields key).getD dflt

/-- Digit-string value, for Python `float(str)`. -/
def natOfDigits (cs : List Char) : Nat :=
  cs.foldl (fun n c => n * 10 + (c.toNat - 48)) 0

/-- Modelled from Python `float()` applied to a string: strip whitespace, an
optional sign, then decimal digits with an optional fractional part; anything
else (including the exotic `inf`, `nan` and exponent forms, which the analysis
pipeline never produces) raises `ValueError`, here `none`. -/
def pyFloatOfString (s : String) : Option ℚ :=
  let cs := s.trim.data
  let signAndDigits : ℚ × List Char :=
    match cs with
    | '-' :: rest => (-1, rest)
    | '+' :: rest => (1, rest)
    | _ => (1, cs)
  let sign := signAndDigits.1
  let body := signAndDigits.2
  let ip := body.takeWhile Char.isDigit
  let rest := body.drop ip.length
  match rest with
  | [] => if ip.isEmpty then none else some (sign * (natOfDigits ip : ℚ))
  | '.' :: fp =>
    if fp.all Char.isDigit ∧ ¬(ip.isEmpty ∧ fp.isEmpty) then
      some (sign * ((natOfDigits ip : ℚ) + (natOfDigits fp : ℚ) / (10 ^ fp.length)))
    else none
  | _ => none

/-- Modelled from Python `float()` on a decoded JSON value: numbers pass
through, booleans coerce, numeric strings parse, and `None`, lists and dicts
raise (`TypeError`/`ValueError`), here `none`. -/
def pyFloat : JValue → Option ℚ
  | .jnum q => some q
  | .jbool b => some (if b then 1 else 0)
  | .jstr s => pyFloatOfString s
  | _ => none

/-- `isinstance(v, dict)` on a decoded JSON value. -/
def JValue.isDict : JValue → Bool
  | .jobj _ => true
  | _ => false

/-- A required pydantic `str` field: absent or non-string values raise a
`ValidationError`, here `none`. -/
def reqStrField (fields : List (String × JValue)) (key : String) : Option String :=
  match jGet fields key with
  | some (.jstr s) => some s
  | _ => none

/-- A pydantic `str` field with a default: absent falls back to the default,
a present non-string value raises a `ValidationError`, here `none`. -/
def strFieldD (fields : List (String × JValue)) (key : String) (dflt : String) :
    Option String :=
  match jGetD fields key (.jstr dflt) with
  | .jstr s => some s
  | _ => none

/-- `ArgumentSummary(**arg)`: pydantic requires `side`, `argument` and
`strength` as strings, `relevant_data` defaults to the empty string. -/
def mkArgumentSummary (fields : List (String × JValue)) : Option ArgumentSummary := do
  let side ← reqStrField fields "side"
  let argument ← reqStrField fields "argument"
  let strength ← reqStrField fields "strength"
  let relevant_data ← strFieldD fields "relevant_data" ""
  pure { side := side, argument := argument, strength := strength,
         relevant_data := relevant_data }

/-- `RecommendedRebuttal(**reb)`: pydantic requires `concern` and `rebuttal`
as strings, `supporting_data` defaults to `""` and `effectiveness` to
`"moderate"`. -/
def mkRecommendedRebuttal (fields : List (String × JValue)) : Option RecommendedRebuttal := do
  let concern ← reqStrField fields "concern"
  let rebuttal ← reqStrField fields "rebuttal"
  let supporting_data ← strFieldD fields "supporting_data" ""
  let effectiveness ← strFieldD fields "effectiveness" "moderate"
  pure { concern := concern, rebuttal := rebuttal, supporting_data := supporting_data,
         effectiveness := effectiveness }

/-- The list comprehension over `data.get("key_arguments", [])`: entries that
are not dicts are skipped, a failing `ArgumentSummary(**arg)` aborts the
whole parse. -/
def buildArgumentSummaries : List JValue → Option (List ArgumentSummary)
  | [] => some []
  | .jobj fields :: rest => do
    let a ← mkArgumentSummary fields
    let tail ← buildArgumentSummaries rest
    pure (a :: tail)
  | _ :: rest => buildArgumentSummaries rest

/-- The list comprehension over `data.get("recommended_rebuttals", [])`. -/
def buildRecommendedRebuttals : List JValue → Option (List RecommendedRebuttal)
  | [] => some []
  | .jobj fields :: rest => do
    let r ← mkRecommendedRebuttal fields
    let tail ← buildRecommendedRebuttals rest
    pure (r :: tail)
  | _ :: rest => buildRecommendedRebuttals rest

/-- Python iteration over a decoded JSON value (`for arg in ...`): lists
iterate their elements, strings their characters, dicts their keys; other
values raise `TypeError`, here `none`. -/
def pyIter : JValue → Option (List JValue)
  | .jarr xs => some xs
  | .jstr s => some (s.data.map (fun c => .jstr (String.mk [c])))
  | .jobj fields => some (fields.map (fun kv => .jstr kv.1))
  | _ => none

/-- The body of `_parse_analysis_response` (`backend/agents/analysis_agent.py`)
after `json.loads`, identical to the inline parse of `_fallback_analysis`
(`backend/api/websocket.py`): build the argument and rebuttal lists, coerce the
score with `float(data.get("approval_score", 50))`, then construct
`AnalysisResult` whose pydantic validation bounds the score to `[0, 100]` and
requires the string fields (defaults applied for absent ones). Every raised
exception is caught by the tier, here `none`. -/
def parse_analysis_data (data : List (String × JValue)) : Option AnalysisResult := do
  let argsRaw ← pyIter (jGetD data "key_arguments" (.jarr []))
  let key_arguments ← buildArgumentSummaries (argsRaw.filter JValue.isDict)
  let rebsRaw ← pyIter (jGetD data "recommended_rebuttals" (.jarr []))
  let recommended_rebuttals ← buildRecommendedRebuttals (rebsRaw.filter JValue.isDict)
  let approval_score ← pyFloat (jGetD data "approval_score" (.jnum 50))
  if approval_score < 0 ∨ 100 < approval_score then none
  else do
    let approval_label ← strFieldD data "approval_label" "Uncertain"
    let approval_reasoning ← strFieldD data "approval_reasoning" ""
    let strongest_opposition_point ← strFieldD data "strongest_opposition_point" ""
    let weakest_opposition_point ← strFieldD data "weakest_opposition_point" ""
    let overall_assessment ← strFieldD data "overall_assessment" ""
    pure { approval_score := approval_score, approval_label := approval_label,
           approval_reasoning := approval_reasoning, key_arguments := key_arguments,
           recommended_rebuttals := recommended_rebuttals,
           strongest_opposition_point := strongest_opposition_point,
           weakest_opposition_point := weakest_opposition_point,
           overall_assessment := overall_assessment }

/-- One analysis tier applied to a response text, modelled from
`_parse_analysis_response`: the brace extraction (`text.find` / `text.rfind`)
and `json.loads` are modelled by their outcome `decoded` (`none` when no braces
are found or the extracted slice is not valid JSON). A decoded value that is
not a dict makes `data.get` raise `AttributeError`, which the tier catches. -/
def parse_analysis_response (decoded : Option JValue) : Option AnalysisResult :=
  match decoded with
  | some (.jobj fields) => parse_analysis_data fields
  | _ => none

/-- The tiered analysis of `run_simulation` (`backend/api/websocket.py`): the
Agent-SDK tier first, the direct-API fallback only when it produced nothing.
Each tier's decoded response object is a parameter; a tier that threw or timed
out is `none`. -/
def analysis_fallback_chain (tier1 tier2 : Option JValue) : Option AnalysisResult :=
  match parse_analysis_response tier1 with
  | some r => some r
  | none => parse_analysis_response tier2

/-- The typed events the run broadcasts through `StreamManager`
(`backend/services/stream_manager.py`); the status payloads carry only a
message here. -/
inductive StreamEvent where
  | phase_change (phase : DebatePhase) (description : String)
  | persona_intro (persona_id : String)
  | speaking_start (turn_id : Nat) (persona_id : String) (phase : DebatePhase)
  | token (turn_id : Nat) (tok : String) (persona_id : String)
  | speaking_end (turn_id : Nat) (persona_id : String) (full_text : String)
  | analysis (result : AnalysisResult)
  | status (message : String)
  | error (message : String)
  | complete

/-- The generative service behind `stream_debate_turn`
(`backend/debate/turns.py`), abstracted as an oracle: given the persona, the
messages array and the system prompt it yields the finite fragment stream of
the turn. -/
def GenService : Type :=
  Persona → List ChatMessage → String → List String

/-- `stream_debate_turn`: consume the fragment stream, returning the fragments
(in delivery order, for the token callbacks) and their concatenation as the
full text. -/
def stream_debate_turn (gen : GenService) (persona : Persona)
    (messages : List ChatMessage) (system_prompt : String) : List String × String :=
  let fragments := gen persona messages system_prompt
  (fragments, String.join fragments)

/-- What `DebateEngine._run_turn` produced for one turn: the speaker, the
phase, the messages array built for the turn (before the turn was appended),
and the completed turn record. -/
structure TurnRecord where
  persona : Persona
  phase : DebatePhase
  messages : List ChatMessage
  turn : DebateTurn
deriving DecidableEq

/-- The evolving state of one engine run: the transcript plus the turn records
and broadcast events accumulated so far. -/
structure RunState where
  transcript : Transcript
  records : List TurnRecord
  events : List StreamEvent

/-- `DebateEngine._get_persona_by_role`: first persona with the role. -/
def get_persona_by_role (personas : List Persona) (role : PersonaRole) : Option Persona :=
  personas.find? (fun p => p.role = role)

/-- `DebateEngine._get_personas_by_role`: all personas with the role, in
generation order. -/
def get_personas_by_role (personas : List Persona) (role : PersonaRole) : List Persona :=
  personas.filter (fun p => p.role = role)

/-- `DebateEngine._run_turn`: notify speaking-start, build the context from
the transcript as it stands, stream the turn, append the completed turn to the
transcript, then notify speaking-end. The uuid turn id is modelled as the
number of turns run so far. -/
def run_turn (gen : GenService) (st : RunState) (persona : Persona)
    (phase : DebatePhase) : RunState :=
  let turn_id := st.records.length
  let built := st.transcript.build_context_for_turn persona phase
  let streamed := stream_debate_turn gen persona built.1 built.2
  let full_text := streamed.2
  let turn : DebateTurn :=
    { id := turn_id, phase := phase, persona_id := persona.id,
      persona_name := persona.name, persona_role := persona.role.value,
      content := full_text }
  { transcript := st.transcript.add_turn turn,
    records := st.records ++
      [{ persona := persona, phase := phase, messages := built.1, turn := turn }],
    events := st.events ++
      [StreamEvent.speaking_start turn_id persona.id phase] ++
      streamed.1.map (fun tok => StreamEvent.token turn_id tok persona.id) ++
      [StreamEvent.speaking_end turn_id persona.id full_text] }

/-- The common prologue of every phase method: `set_phase` on the transcript
and the `on_phase_change` notification. -/
def push_phase (st : RunState) (phase : DebatePhase) (description : String) : RunState :=
  { st with transcript := st.transcript.set_phase phase,
            events := st.events ++ [StreamEvent.phase_change phase description] }

/-- `DebateEngine._run_opening_phase`: moderator opens, then petitioner
presents, each skipped when the role is absent. -/
def run_opening_phase (gen : GenService) (personas : List Persona) (st : RunState) :
    RunState :=
  let st := push_phase st .opening "The meeting is called to order"
  let st :=
    match get_persona_by_role personas .moderator with
    | some moderator => run_turn gen st moderator .opening
    | none => st
  match get_persona_by_role personas .petitioner with
  | some petitioner => run_turn gen st petitioner .opening
  | none => st

/-- `DebateEngine._run_public_comment_phase`: every resident speaks once, in
generation order. -/
def run_public_comment_phase (gen : GenService) (personas : List Persona)
    (st : RunState) : RunState :=
  let st := push_phase st .public_comment "The floor is open for public comment"
  (get_personas_by_role personas .resident).foldl
    (fun st resident => run_turn gen st resident .public_comment) st

/-- `DebateEngine._run_rebuttal_phase`: the petitioner responds, if present. -/
def run_rebuttal_phase (gen : GenService) (personas : List Persona) (st : RunState) :
    RunState :=
  let st := push_phase st .rebuttal "The petitioner may now respond to public comments"
  match get_persona_by_role personas .petitioner with
  | some petitioner => run_turn gen st petitioner .rebuttal
  | none => st

/-- `DebateEngine._run_council_qa_phase`: with a council member the fixed
sequence council, petitioner, council, petitioner, the petitioner sub-turns
skipped when no petitioner exists; without a council member, nothing. -/
def run_council_qa_phase (gen : GenService) (personas : List Persona) (st : RunState) :
    RunState :=
  let st := push_phase st .council_qa "Council members may now ask questions"
  match get_persona_by_role personas .council_member with
  | none => st
  | some council =>
    let st := run_turn gen st council .council_qa
    let st :=
      match get_persona_by_role personas .petitioner with
      | some petitioner => run_turn gen st petitioner .council_qa
      | none => st
    let st := run_turn gen st council .council_qa
    match get_persona_by_role personas .petitioner with
    | some petitioner => run_turn gen st petitioner .council_qa
    | none => st

/-- `DebateEngine._run_deliberation_phase`: moderator summarizes, council
member votes, each skipped when absent. -/
def run_deliberation_phase (gen : GenService) (personas : List Persona)
    (st : RunState) : RunState :=
  let st := push_phase st .deliberation "The council will now deliberate"
  let st :=
    match get_persona_by_role personas .moderator with
    | some moderator => run_turn gen st moderator .deliberation
    | none => st
  match get_persona_by_role personas .council_member with
  | some council => run_turn gen st council .deliberation
  | none => st

/-- The engine's initial transcript, from `DebateEngine.__init__`: the
proposal details and the `"city, state"` context (the state omitted when
empty). -/
def initial_transcript (input : SimulationInput) : Transcript :=
  { proposal_summary := input.proposal_details,
    city_context :=
      if input.state ≠ "" then input.city_name ++ ", " ++ input.state
      else input.city_name,
    turns := [],
    current_phase := .opening }

/-- The initial run state: empty transcript, no records, no events. -/
def initial_run_state (input : SimulationInput) : RunState :=
  { transcript := initial_transcript input, records := [], events := [] }

/-- `DebateEngine.run_debate`: the five phases in their fixed order. -/
def run_debate (gen : GenService) (personas : List Persona)
    (input : SimulationInput) : RunState :=
  let st := initial_run_state input
  let st := run_opening_phase gen personas st
  let st := run_public_comment_phase gen personas st
  let st := run_rebuttal_phase gen personas st
  let st := run_council_qa_phase gen personas st
  run_deliberation_phase gen personas st

/-- The event stream of one completed `run_simulation` call
(`backend/api/websocket.py`), given the generated personas, the debate oracle
and the decoded response object of each analysis tier: persona intros, the
debate's own events, the analysis broadcast when some tier produced a result,
and the final complete broadcast. The interleaved status broadcasts carry no
turn or analysis payloads and are elided. -/
def run_simulation_events (gen : GenService) (personas : List Persona)
    (input : SimulationInput) (tier1 tier2 : Option JValue) : List StreamEvent :=
  personas.map (fun p => StreamEvent.persona_intro p.id)
    ++ (run_debate gen personas input).events
    ++ (match analysis_fallback_chain tier1 tier2 with
        | some result => [StreamEvent.analysis result]
        | none => [])
    ++ [StreamEvent.complete]

/-- `SimulationStatus` from `backend/models/simulation.py`. -/
inductive SimulationStatus where
  | setup
  | generating_personas
  | opening
  | public_comment
  | rebuttal
  | council_qa
  | deliberation
  | analysis
  | complete
  | error
deriving DecidableEq

/-- A stored transcript-turn dict, as appended by the `on_speaking_end`
callback of `run_simulation`. -/
structure StoredTurn where
  turn_id : Nat
  persona_id : String
  full_text : String
deriving DecidableEq

/-- `SimulationState` from `backend/models/simulation.py` (the stored persona
dicts are kept as `Persona` values). -/
structure StoredSimulation where
  input : SimulationInput
  status : SimulationStatus
  personas : List Persona
  transcript : List StoredTurn
  analysis : Option AnalysisResult
  error : Option String
deriving DecidableEq

/-- The state of an `asyncio.Task`: still running, or `task.done()`. -/
inductive TaskState where
  | active
  | done
deriving DecidableEq

/-- Python dict lookup in an association list whose entries are unique by
construction (fresh uuid keys); `set_entry` models `d[k] = v`. -/
def lookup_entry {α : Type} : List (String × α) → String → Option α
  | [], _ => none
  | kv :: rest, key => if kv.1 = key then some kv.2 else lookup_entry rest key

/-- Python dict assignment `d[k] = v`: overwrite the entry when the key
exists, append it otherwise. -/
def set_entry {α : Type} : List (String × α) → String → α → List (String × α)
  | [], key, v => [(key, v)]
  | kv :: rest, key, v =>
    if kv.1 = key then (key, v) :: rest else kv :: set_entry rest key v

/-- `SimulationManager` (`backend/services/simulation_manager.py`): the
`_simulations` dict, the `_locks` dict (a lock object carries no data, so only
its key matters) and the `_tasks` dict. -/
structure SimulationManager where
  simulations : List (String × StoredSimulation)
  locks : List String
  tasks : List (String × TaskState)

/-- The manager created by `get_simulation_manager` on first use. -/
def SimulationManager.empty : SimulationManager :=
  { simulations := [], locks := [], tasks := [] }

/-- `SimulationManager.create_simulation`: store the fresh state and create
its lock; the generated uuid is the `id` argument. -/
def SimulationManager.create_simulation (m : SimulationManager) (id : String)
    (input : SimulationInput) : SimulationManager :=
  { m with
    simulations := set_entry m.simulations id
      { input := input, status := .setup, personas := [], transcript := [],
        analysis := none, error := none },
    locks := if id ∈ m.locks then m.locks else m.locks ++ [id] }

/-- The shared shape of every mutating store operation: look the state up,
return unchanged when the id is unknown, otherwise acquire
`self._locks[simulation_id]` — a `KeyError` (`Except.error`) when no lock
exists — and apply the mutation under it. -/
def SimulationManager.mutate (m : SimulationManager) (id : String)
    (f : StoredSimulation → StoredSimulation) : Except String SimulationManager :=
  match lookup_entry m.simulations id with
  | none => .ok m
  | some state =>
    if id ∈ m.locks then
      .ok { m with simulations := set_entry m.simulations id (f state) }
    else
      .error "KeyError: missing lock"

/-- `SimulationManager.update_status`. -/
def SimulationManager.update_status (m : SimulationManager) (id : String)
    (status : SimulationStatus) : Except String SimulationManager :=
  m.mutate id (fun state => { state with status := status })

/-- `SimulationManager.update_personas`. -/
def SimulationManager.update_personas (m : SimulationManager) (id : String)
    (personas : List Persona) : Except String SimulationManager :=
  m.mutate id (fun state => { state with personas := personas })

/-- `SimulationManager.add_transcript_turn`. -/
def SimulationManager.add_transcript_turn (m : SimulationManager) (id : String)
    (turn : StoredTurn) : Except String SimulationManager :=
  m.mutate id (fun state => { state with transcript := state.transcript ++ [turn] })

/-- `SimulationManager.set_analysis`. -/
def SimulationManager.set_analysis (m : SimulationManager) (id : String)
    (result : AnalysisResult) : Except String SimulationManager :=
  m.mutate id (fun state => { state with analysis := some result })

/-- `SimulationManager.set_error`. -/
def SimulationManager.set_error (m : SimulationManager) (id : String)
    (message : String) : Except String SimulationManager :=
  m.mutate id (fun state => { state with status := .error, error := some message })

/-- One operation against the store, for reasoning about every reachable
manager state. -/
inductive StoreOp where
  | create (id : String) (input : SimulationInput)
  | update_status (id : String) (status : SimulationStatus)
  | update_personas (id : String) (personas : List Persona)
  | add_transcript_turn (id : String) (turn : StoredTurn)
  | set_analysis (id : String) (result : AnalysisResult)
  | set_error (id : String) (message : String)

/-- Apply one store operation. -/
def apply_store_op (m : SimulationManager) : StoreOp → Except String SimulationManager
  | .create id input => .ok (m.create_simulation id input)
  | .update_status id status => m.update_status id status
  | .update_personas id personas => m.update_personas id personas
  | .add_transcript_turn id turn => m.add_transcript_turn id turn
  | .set_analysis id result => m.set_analysis id result
  | .set_error id message => m.set_error id message

/-- Apply a sequence of store operations, stopping at the first `KeyError`. -/
def apply_store_ops (m : SimulationManager) : List StoreOp → Except String SimulationManager
  | [] => .ok m
  | op :: rest =>
    match apply_store_op m op with
    | .ok m2 => apply_store_ops m2 rest
    | .error e => .error e

/-- Every stored session id has a lock entry. -/
def locks_cover (m : SimulationManager) : Prop :=
  ∀ id state, lookup_entry m.simulations id = some state → id ∈ m.locks

/-- `SimulationManager.get_task`. -/
def SimulationManager.get_task (m : SimulationManager) (id : String) : Option TaskState :=
  lookup_entry m.tasks id

/-- `SimulationManager.register_task`. -/
def SimulationManager.register_task (m : SimulationManager) (id : String)
    (task : TaskState) : SimulationManager :=
  { m with tasks := set_entry m.tasks id task }

/-- The start-run check of `websocket_endpoint` (`backend/api/websocket.py`):
`existing_task is None or existing_task.done()` spawns and registers a fresh
run task, otherwise nothing happens. There is no `await` between the check
and the registration, so under asyncio's run-to-completion scheduling the
check-and-register is atomic. The returned flag records whether a new run
task was created. -/
def start_run (m : SimulationManager) (id : String) : SimulationManager × Bool :=
  match m.get_task id with
  | none => (m.register_task id .active, true)
  | some .done => (m.register_task id .active, true)
  | some .active => (m, false)

/-- Running a list of (phase, speaker) turns in order, the normal form every
phase method reduces to. -/
def run_seq (gen : GenService) (st : RunState)
    (plan : List (DebatePhase × Persona)) : RunState :=
  plan.foldl (fun st pp => run_turn gen st pp.2 pp.1) st

/-- The speakers of the opening phase, in order. -/
def opening_plan (personas : List Persona) : List (DebatePhase × Persona) :=
  ((get_persona_by_role personas .moderator).toList
      ++ (get_persona_by_role personas .petitioner).toList).map
    (fun p => (DebatePhase.opening, p))

/-- The speakers of the public-comment phase, in order. -/
def public_comment_plan (personas : List Persona) : List (DebatePhase × Persona) :=
  (get_personas_by_role personas .resident).map (fun p => (DebatePhase.public_comment, p))

/-- The speakers of the rebuttal phase. -/
def rebuttal_plan (personas : List Persona) : List (DebatePhase × Persona) :=
  (get_persona_by_role personas .petitioner).toList.map (fun p => (DebatePhase.rebuttal, p))

/-- The speakers of the council-qa phase, in order. -/
def council_qa_plan (personas : List Persona) : List (DebatePhase × Persona) :=
  match get_persona_by_role personas .council_member with
  | none => []
  | some council =>
    [(DebatePhase.council_qa, council)]
      ++ (get_persona_by_role personas .petitioner).toList.map
           (fun p => (DebatePhase.council_qa, p))
      ++ [(DebatePhase.council_qa, council)]
      ++ (get_persona_by_role personas .petitioner).toList.map
           (fun p => (DebatePhase.council_qa, p))

/-- The speakers of the deliberation phase, in order. -/
def deliberation_plan (personas : List Persona) : List (DebatePhase × Persona) :=
  ((get_persona_by_role personas .moderator).toList
      ++ (get_persona_by_role personas .council_member).toList).map
    (fun p => (DebatePhase.deliberation, p))

/-- The full speaking order of a run, phase by phase. -/
def run_order (personas : List Persona) : List (DebatePhase × Persona) :=
  opening_plan personas ++ public_comment_plan personas ++ rebuttal_plan personas
    ++ council_qa_plan personas ++ deliberation_plan personas

/-- The (phase, speaker) signature of one turn record. -/
def turn_sig (r : TurnRecord) : DebatePhase × Persona :=
  (r.phase, r.persona)

/-- The phase-change payloads among a list of events, in order. -/
def phase_changes (events : List StreamEvent) : List (DebatePhase × String) :=
  events.filterMap (fun e =>
    match e with
    | .phase_change phase description => some (phase, description)
    | _ => none)

/-- Events emitted while a single turn streams. -/
def is_turn_event : StreamEvent → Bool
  | .speaking_start _ _ _ => true
  | .token _ _ _ => true
  | .speaking_end _ _ _ => true
  | _ => false

/-- Events a debate run itself emits (turn events and phase changes). -/
def is_run_event : StreamEvent → Bool
  | .phase_change _ _ => true
  | .speaking_start _ _ _ => true
  | .token _ _ _ => true
  | .speaking_end _ _ _ => true
  | _ => false

/-- The analysis broadcast. -/
def is_analysis_event : StreamEvent → Bool
  | .analysis _ => true
  | _ => false

/-- The complete broadcast. -/
def is_complete_event : StreamEvent → Bool
  | .complete => true
  | _ => false

/-- How many personas of a role the list contains. -/
def role_count (personas : List Persona) (role : PersonaRole) : Nat :=
  personas.countP (fun p => p.role = role)

/-- A default turn record, for positional access via `List.getD`. -/
def dummy_turn_record : TurnRecord :=
  { persona := { id := "", name := "", role := .moderator, system_prompt := "" },
    phase := .opening,
    messages := [],
    turn := { id := 0, phase := .opening, persona_id := "", persona_name := "",
              persona_role := "", content := "" } }

/-- The transcript as it stands right before some turn: the engine's initial
transcript carrying a prefix of the completed turns, the current phase set. -/
def prefix_transcript (input : SimulationInput) (turns : List DebateTurn)
    (phase : DebatePhase) : Transcript :=
  { initial_transcript input with turns := turns, current_phase := phase }

/-- The run-state invariant the engine maintains: the transcript holds exactly
the completed turns of the records, the proposal and city context are those of
the input, and every record's messages array was built from the transcript
holding exactly the records before it. -/
def context_faithful (input : SimulationInput) (st : RunState) : Prop :=
  st.transcript.turns = st.records.map (fun r => r.turn) ∧
  st.transcript.proposal_summary = input.proposal_details ∧
  st.transcript.city_context = (initial_transcript input).city_context ∧
  ∀ i, i < st.records.length →
    (st.records.getD i dummy_turn_record).messages
      = (Transcript.build_context_for_turn
          (prefix_transcript input ((st.records.take i).map (fun r => r.turn))
            ((st.records.getD i dummy_turn_record).phase))
          ((st.records.getD i dummy_turn_record).persona)
          ((st.records.getD i dummy_turn_record).phase)).1

/-- A sample oracle for concrete evaluations: every turn streams in two
fragments. -/
def sample_gen : GenService :=
  fun _ _ _ => ["Thank you. ", "I yield my time."]

/-- A concrete simulation input for witnesses. -/
def sample_input : SimulationInput :=
  { city_name := "Novi", state := "MI",
    proposal_details := "A 200MW data center campus on the west side." }

/-- A concrete full cast: moderator, petitioner, three residents, council
member. -/
def sample_moderator : Persona :=
  { id := "p-mod", name := "Clerk Reyes", role := .moderator, system_prompt := "You moderate." }

/-- The sample petitioner. -/
def sample_petitioner : Persona :=
  { id := "p-pet", name := "Dana Cole", role := .petitioner, system_prompt := "You petition." }

/-- The first sample resident. -/
def sample_resident1 : Persona :=
  { id := "p-r1", name := "Ada Park", role := .resident, system_prompt := "You live here." }

/-- The second sample resident. -/
def sample_resident2 : Persona :=
  { id := "p-r2", name := "Ben Okafor", role := .resident, system_prompt := "You live here." }

/-- The third sample resident. -/
def sample_resident3 : Persona :=
  { id := "p-r3", name := "Cam Diaz", role := .resident, system_prompt := "You live here." }

/-- The sample council member. -/
def sample_council : Persona :=
  { id := "p-cm", name := "Member Hale", role := .council_member, system_prompt := "You vote." }

/-- The sample full cast in generation order. -/
def sample_full_cast : List Persona :=
  [sample_moderator, sample_petitioner, sample_resident1, sample_resident2,
   sample_resident3, sample_council]

/-- A short content string (length 100) for the truncation witness. -/
def short_content : String :=
  String.mk (List.replicate 100 'a')

/-- A long content string (length 1000) for the truncation witness. -/
def long_content : String :=
  String.mk (List.replicate 1000 'b')

/-- A turn whose content is 100 characters, for the truncation witness. -/
def sample_short_turn : DebateTurn :=
  { id := 0, phase := .public_comment, persona_id := "p-r1", persona_name := "Ada Park",
    persona_role := "resident", content := short_content }

/-- A turn whose content is 1000 characters, for the truncation witness. -/
def sample_long_turn : DebateTurn :=
  { id := 1, phase := .rebuttal, persona_id := "p-pet", persona_name := "Dana Cole",
    persona_role := "petitioner", content := long_content }

/-- Concrete scoring-tool arguments: one factor supplied, the rest omitted. -/
def sample_score_args : ScoreArgs :=
  fun k => if k = "petitioner_argument_quality" then some 8 else none

/-- Unfolding one step of a turn sequence. -/
theorem run_seq_cons (gen : GenService) (st : RunState) (pp : DebatePhase × Persona)
    (rest : List (DebatePhase × Persona)) :
    run_seq gen st (pp :: rest) = run_seq gen (run_turn gen st pp.2 pp.1) rest := rfl

/-- A turn appends exactly one record, carrying its speaker and phase. -/
theorem run_turn_records_map (gen : GenService) (st : RunState) (p : Persona)
    (phase : DebatePhase) :
    (run_turn gen st p phase).records.map turn_sig
      = st.records.map turn_sig ++ [(phase, p)] := by
  simp [run_turn, turn_sig]

/-- A turn sequence appends exactly its plan to the record signatures. -/
theorem run_seq_records_map (gen : GenService) (plan : List (DebatePhase × Persona))
    (st : RunState) :
    (run_seq gen st plan).records.map turn_sig
      = st.records.map turn_sig ++ plan := by
  induction plan generalizing st with
  | nil => simp [run_seq]
  | cons pp rest ih =>
    rw [run_seq_cons, ih, run_turn_records_map]
    simp

/-- The phase prologue leaves the records untouched. -/
theorem push_phase_records (st : RunState) (phase : DebatePhase) (d : String) :
    (push_phase st phase d).records = st.records := rfl

/-- The opening phase is the turn sequence of its plan. -/
theorem run_opening_phase_eq (gen : GenService) (personas : List Persona) (st : RunState) :
    run_opening_phase gen personas st
      = run_seq gen (push_phase st .opening "The meeting is called to order")
          (opening_plan personas) := by
  unfold run_opening_phase opening_plan
  cases get_persona_by_role personas .moderator <;>
    cases get_persona_by_role personas .petitioner <;>
      simp [run_seq]

/-- The public-comment phase is the turn sequence of its plan. -/
theorem run_public_comment_phase_eq (gen : GenService) (personas : List Persona)
    (st : RunState) :
    run_public_comment_phase gen personas st
      = run_seq gen (push_phase st .public_comment "The floor is open for public comment")
          (public_comment_plan personas) := by
  unfold run_public_comment_phase public_comment_plan run_seq
  rw [List.foldl_map]

/-- The rebuttal phase is the turn sequence of its plan. -/
theorem run_rebuttal_phase_eq (gen : GenService) (personas : List Persona) (st : RunState) :
    run_rebuttal_phase gen personas st
      = run_seq gen
          (push_phase st .rebuttal "The petitioner may now respond to public comments")
          (rebuttal_plan personas) := by
  unfold run_rebuttal_phase rebuttal_plan
  cases get_persona_by_role personas .petitioner <;> simp [run_seq]

/-- The council-qa phase is the turn sequence of its plan. -/
theorem run_council_qa_phase_eq (gen : GenService) (personas : List Persona) (st : RunState) :
    run_council_qa_phase gen personas st
      = run_seq gen (push_phase st .council_qa "Council members may now ask questions")
          (council_qa_plan personas) := by
  unfold run_council_qa_phase council_qa_plan
  cases get_persona_by_role personas .council_member <;>
    cases get_persona_by_role personas .petitioner <;>
      simp [run_seq]

/-- The deliberation phase is the turn sequence of its plan. -/
theorem run_deliberation_phase_eq (gen : GenService) (personas : List Persona)
    (st : RunState) :
    run_deliberation_phase gen personas st
      = run_seq gen (push_phase st .deliberation "The council will now deliberate")
          (deliberation_plan personas) := by
  unfold run_deliberation_phase deliberation_plan
  cases get_persona_by_role personas .moderator <;>
    cases get_persona_by_role personas .council_member <;>
      simp [run_seq]

/-- A full debate's records are, speaker for speaker, the run order of its
persona list. -/
theorem run_debate_records_map (gen : GenService) (personas : List Persona)
    (input : SimulationInput) :
    (run_debate gen personas input).records.map turn_sig = run_order personas := by
  simp only [run_debate]
  rw [run_opening_phase_eq, run_public_comment_phase_eq, run_rebuttal_phase_eq,
      run_council_qa_phase_eq, run_deliberation_phase_eq]
  simp [run_seq_records_map, push_phase_records, run_order, initial_run_state,
    List.append_assoc]

/-- A turn sequence only appends turn events. -/
theorem run_seq_events_extend (gen : GenService) (plan : List (DebatePhase × Persona))
    (st : RunState) :
    ∃ l, (run_seq gen st plan).events = st.events ++ l ∧
      ∀ e ∈ l, is_turn_event e = true := by
  induction plan generalizing st with
  | nil => exact ⟨[], by simp [run_seq], by simp⟩
  | cons pp rest ih =>
    obtain ⟨l, hl, hall⟩ := ih (run_turn gen st pp.2 pp.1)
    refine ⟨([StreamEvent.speaking_start st.records.length pp.2.id pp.1]
        ++ (gen pp.2 (st.transcript.build_context_for_turn pp.2 pp.1).1
              (st.transcript.build_context_for_turn pp.2 pp.1).2).map
            (fun tok => StreamEvent.token st.records.length tok pp.2.id)
        ++ [StreamEvent.speaking_end st.records.length pp.2.id
              (String.join (gen pp.2 (st.transcript.build_context_for_turn pp.2 pp.1).1
                (st.transcript.build_context_for_turn pp.2 pp.1).2))]) ++ l, ?_, ?_⟩
    · rw [run_seq_cons, hl]
      simp [run_turn, stream_debate_turn]
    · intro e he
      rcases List.mem_append.1 he with h | h
      · rcases List.mem_append.1 h with h2 | h2
        · rcases List.mem_append.1 h2 with h3 | h3
          · simp at h3; subst h3; rfl
          · obtain ⟨tok, _, rfl⟩ := List.mem_map.1 h3; rfl
        · simp at h2; subst h2; rfl
      · exact hall e h

/-- The phase prologue appends exactly its phase-change event. -/
theorem push_phase_events (st : RunState) (phase : DebatePhase) (d : String) :
    (push_phase st phase d).events = st.events ++ [StreamEvent.phase_change phase d] := rfl

/-- One whole phase appends only debate-run events. -/
theorem phase_events_extend (gen : GenService) (plan : List (DebatePhase × Persona))
    (st : RunState) (phase : DebatePhase) (d : String) :
    ∃ l, (run_seq gen (push_phase st phase d) plan).events = st.events ++ l ∧
      ∀ e ∈ l, is_run_event e = true := by
  obtain ⟨l, hl, hall⟩ := run_seq_events_extend gen plan (push_phase st phase d)
  refine ⟨[StreamEvent.phase_change phase d] ++ l, ?_, ?_⟩
  · rw [hl, push_phase_events, List.append_assoc]
  · intro e he
    rcases List.mem_append.1 he with h | h
    · simp at h; subst h; rfl
    · have := hall e h
      cases e <;> simp [is_turn_event, is_run_event] at this ⊢

/-- A debate run emits only phase-change and turn events: in particular no
analysis and no complete event of its own. -/
theorem run_debate_events_run_only (gen : GenService) (personas : List Persona)
    (input : SimulationInput) :
    ∀ e ∈ (run_debate gen personas input).events, is_run_event e = true := by
  simp only [run_debate]
  rw [run_opening_phase_eq, run_public_comment_phase_eq, run_rebuttal_phase_eq,
      run_council_qa_phase_eq, run_deliberation_phase_eq]
  obtain ⟨l1, h1, a1⟩ := phase_events_extend gen (opening_plan personas)
    (initial_run_state input) .opening "The meeting is called to order"
  obtain ⟨l2, h2, a2⟩ := phase_events_extend gen (public_comment_plan personas) _
    .public_comment "The floor is open for public comment"
  obtain ⟨l3, h3, a3⟩ := phase_events_extend gen (rebuttal_plan personas) _
    .rebuttal "The petitioner may now respond to public comments"
  obtain ⟨l4, h4, a4⟩ := phase_events_extend gen (council_qa_plan personas) _
    .council_qa "Council members may now ask questions"
  obtain ⟨l5, h5, a5⟩ := phase_events_extend gen (deliberation_plan personas) _
    .deliberation "The council will now deliberate"
  intro e he
  rw [h5, h4, h3, h2, h1] at he
  simp only [initial_run_state, List.nil_append, List.mem_append] at he
  rcases he with ((((h | h) | h) | h) | h)
  · exact a1 e h
  · exact a2 e h
  · exact a3 e h
  · exact a4 e h
  · exact a5 e h

/-- The built context ignores the transcript's current-phase marker: it reads
only the proposal, the city context and the prior turns. -/
theorem build_context_for_turn_congr (t1 t2 : Transcript) (p : Persona) (phase : DebatePhase)
    (h1 : t1.proposal_summary = t2.proposal_summary)
    (h2 : t1.city_context = t2.city_context)
    (h3 : t1.turns = t2.turns) :
    t1.build_context_for_turn p phase = t2.build_context_for_turn p phase := by
  cases t1; cases t2
  simp only at h1 h2 h3
  subst h1; subst h2; subst h3
  rfl

/-- Positional access at the end of an appended singleton. -/
theorem getD_append_length {α : Type} (l : List α) (x d : α) :
    (l ++ [x]).getD l.length d = x := by
  induction l with
  | nil => rfl
  | cons a rest ih =>
    simp only [List.cons_append, List.length_cons, List.getD_cons_succ]
    exact ih

/-- Running one turn preserves the context-faithfulness invariant: the context
it builds sees exactly the turns completed before it, and its own turn joins
the transcript only afterwards. -/
theorem context_faithful_run_turn (gen : GenService) (input : SimulationInput)
    (st : RunState) (p : Persona) (phase : DebatePhase)
    (h : context_faithful input st) :
    context_faithful input (run_turn gen st p phase) := by
  obtain ⟨ht, hp, hc, hmsg⟩ := h
  refine ⟨?_, ?_, ?_, ?_⟩
  · simp [run_turn, Transcript.add_turn, ht]
  · simp [run_turn, Transcript.add_turn, hp]
  · simp [run_turn, Transcript.add_turn, hc]
  · intro i hi
    obtain ⟨r, hr, hm, hrphase, hrpersona⟩ :
        ∃ r : TurnRecord, (run_turn gen st p phase).records = st.records ++ [r] ∧
          r.messages = (st.transcript.build_context_for_turn p phase).1 ∧
          r.phase = phase ∧ r.persona = p :=
      ⟨_, rfl, rfl, rfl, rfl⟩
    rw [hr] at hi ⊢
    simp only [List.length_append, List.length_cons, List.length_nil] at hi
    rcases Nat.lt_or_ge i st.records.length with hlt | hge
    · rw [List.getD_append _ _ _ _ hlt, List.take_append_of_le_length (Nat.le_of_lt hlt)]
      exact hmsg i hlt
    · have hieq : i = st.records.length := by omega
      subst hieq
      rw [getD_append_length, List.take_left, hm, hrphase, hrpersona]
      exact congrArg Prod.fst (build_context_for_turn_congr st.transcript
        (prefix_transcript input (st.records.map (fun r => r.turn)) phase) p phase
        (by simpa [prefix_transcript, initial_transcript] using hp)
        (by simpa [prefix_transcript, initial_transcript] using hc)
        (by simpa [prefix_transcript] using ht))

/-- The phase prologue preserves the context-faithfulness invariant. -/
theorem context_faithful_push_phase (input : SimulationInput) (st : RunState)
    (phase : DebatePhase) (d : String) (h : context_faithful input st) :
    context_faithful input (push_phase st phase d) := by
  obtain ⟨ht, hp, hc, hmsg⟩ := h
  exact ⟨by simpa [push_phase, Transcript.set_phase] using ht,
         by simpa [push_phase, Transcript.set_phase] using hp,
         by simpa [push_phase, Transcript.set_phase] using hc,
         hmsg⟩

/-- Turn sequences preserve the context-faithfulness invariant. -/
theorem context_faithful_run_seq (gen : GenService) (input : SimulationInput)
    (plan : List (DebatePhase × Persona)) (st : RunState)
    (h : context_faithful input st) :
    context_faithful input (run_seq gen st plan) := by
  induction plan generalizing st with
  | nil => exact h
  | cons pp rest ih =>
    rw [run_seq_cons]
    exact ih _ (context_faithful_run_turn gen input st pp.2 pp.1 h)

/-- A fresh run state is context-faithful. -/
theorem context_faithful_initial (input : SimulationInput) :
    context_faithful input (initial_run_state input) := by
  refine ⟨rfl, rfl, rfl, ?_⟩
  intro i hi
  simp [initial_run_state] at hi

/-- A completed debate run is context-faithful. -/
theorem run_debate_context_faithful (gen : GenService) (personas : List Persona)
    (input : SimulationInput) :
    context_faithful input (run_debate gen personas input) := by
  simp only [run_debate]
  rw [run_opening_phase_eq, run_public_comment_phase_eq, run_rebuttal_phase_eq,
      run_council_qa_phase_eq, run_deliberation_phase_eq]
  apply context_faithful_run_seq
  apply context_faithful_push_phase
  apply context_faithful_run_seq
  apply context_faithful_push_phase
  apply context_faithful_run_seq
  apply context_faithful_push_phase
  apply context_faithful_run_seq
  apply context_faithful_push_phase
  apply context_faithful_run_seq
  apply context_faithful_push_phase
  exact context_faithful_initial input

/-- A positive role count yields the first persona of that role. -/
theorem role_count_one_find (personas : List Persona) (role : PersonaRole)
    (h : 0 < role_count personas role) :
    ∃ p, get_persona_by_role personas role = some p ∧ p.role = role := by
  unfold role_count at h
  obtain ⟨q, hq, hqr⟩ := List.countP_pos_iff.1 h
  have hsome : (personas.find? (fun p => p.role = role)).isSome :=
    List.find?_isSome.2 ⟨q, hq, hqr⟩
  obtain ⟨p, hp⟩ := Option.isSome_iff_exists.1 hsome
  refine ⟨p, hp, ?_⟩
  have := List.find?_some hp
  simpa using this

/-- A persona of the role exists exactly when the role lookup succeeds. -/
theorem exists_role_find (personas : List Persona) (role : PersonaRole)
    (h : ∃ q ∈ personas, q.role = role) :
    ∃ p, get_persona_by_role personas role = some p ∧ p.role = role := by
  obtain ⟨q, hq, hqr⟩ := h
  have hsome : (personas.find? (fun p => p.role = role)).isSome :=
    List.find?_isSome.2 ⟨q, hq, by simp [hqr]⟩
  obtain ⟨p, hp⟩ := Option.isSome_iff_exists.1 hsome
  refine ⟨p, hp, ?_⟩
  have := List.find?_some hp
  simpa using this

/-- Without a persona of the role, the role lookup fails. -/
theorem not_exists_role_find (personas : List Persona) (role : PersonaRole)
    (h : ¬ ∃ q ∈ personas, q.role = role) :
    get_persona_by_role personas role = none := by
  unfold get_persona_by_role
  rw [List.find?_eq_none]
  intro x hx
  simp only [decide_eq_true_eq]
  exact fun hr => h ⟨x, hx, hr⟩

/-- The role filter has as many entries as the role count. -/
theorem role_count_filter_length (personas : List Persona) (role : PersonaRole) :
    (get_personas_by_role personas role).length = role_count personas role := by
  simp [get_personas_by_role, role_count, List.countP_eq_length_filter]

/-- Looking an entry up right after setting it. -/
theorem lookup_set_entry_self {α : Type} (l : List (String × α)) (k : String) (v : α) :
    lookup_entry (set_entry l k v) k = some v := by
  induction l with
  | nil => simp [set_entry, lookup_entry]
  | cons kv rest ih =>
    by_cases h : kv.1 = k <;> simp [set_entry, lookup_entry, h, ih]

/-- Setting one key leaves every other lookup unchanged. -/
theorem lookup_set_entry_ne {α : Type} (l : List (String × α)) (k k2 : String) (v : α)
    (h : k2 ≠ k) :
    lookup_entry (set_entry l k v) k2 = lookup_entry l k2 := by
  induction l with
  | nil =>
    simp only [set_entry, lookup_entry]
    rw [if_neg (fun hh => h hh.symm)]
  | cons kv rest ih =>
    by_cases hk : kv.1 = k
    · simp only [set_entry, if_pos hk, lookup_entry]
      rw [if_neg (fun hh => h hh.symm), if_neg (fun hh : kv.1 = k2 => h (hh ▸ hk))]
    · simp only [set_entry, if_neg hk, lookup_entry]
      by_cases h2 : kv.1 = k2
      · rw [if_pos h2, if_pos h2]
      · rw [if_neg h2, if_neg h2]
        exact ih

/-- A freshly registered task is found active. -/
theorem get_task_register_self (m : SimulationManager) (id : String) (t : TaskState) :
    (m.register_task id t).get_task id = some t := by
  simp [SimulationManager.get_task, SimulationManager.register_task, lookup_set_entry_self]

/-- Start-run against an active task changes nothing and spawns nothing. -/
theorem start_run_noop (m : SimulationManager) (id : String)
    (h : m.get_task id = some .active) : start_run m id = (m, false) := by
  simp [start_run, h]

/-- A mutating store operation on a lock-covered manager never raises and
preserves coverage. -/
theorem mutate_ok (m : SimulationManager) (h : locks_cover m) (id : String)
    (f : StoredSimulation → StoredSimulation) :
    ∃ m2, m.mutate id f = .ok m2 ∧ locks_cover m2 := by
  unfold SimulationManager.mutate
  cases hlook : lookup_entry m.simulations id with
  | none => exact ⟨m, rfl, h⟩
  | some st =>
    have hmem := h id st hlook
    dsimp only
    rw [if_pos hmem]
    refine ⟨_, rfl, ?_⟩
    intro id2 st2 hlk2
    by_cases hid : id2 = id
    · subst hid; exact hmem
    · rw [lookup_set_entry_ne _ _ _ _ hid] at hlk2
      exact h id2 st2 hlk2

/-- Creating a session stores its state and its lock together, preserving
coverage. -/
theorem create_ok (m : SimulationManager) (h : locks_cover m) (id : String)
    (input : SimulationInput) :
    locks_cover (m.create_simulation id input) := by
  intro id2 st2 hlk
  by_cases hid : id2 = id
  · subst hid
    simp only [SimulationManager.create_simulation]
    split_ifs with hmem
    · exact hmem
    · exact List.mem_append.2 (Or.inr (by simp))
  · simp only [SimulationManager.create_simulation] at hlk
    rw [lookup_set_entry_ne _ _ _ _ hid] at hlk
    have hin := h id2 st2 hlk
    simp only [SimulationManager.create_simulation]
    split_ifs
    · exact hin
    · exact List.mem_append.2 (Or.inl hin)

/-- Any single store operation on a lock-covered manager succeeds and
preserves coverage. -/
theorem apply_store_op_ok (m : SimulationManager) (h : locks_cover m) (op : StoreOp) :
    ∃ m2, apply_store_op m op = .ok m2 ∧ locks_cover m2 := by
  cases op with
  | create id input => exact ⟨_, rfl, create_ok m h id input⟩
  | update_status id status => exact mutate_ok m h id _
  | update_personas id personas => exact mutate_ok m h id _
  | add_transcript_turn id turn => exact mutate_ok m h id _
  | set_analysis id result => exact mutate_ok m h id _
  | set_error id message => exact mutate_ok m h id _

/-- Any operation sequence on a lock-covered manager succeeds and preserves
coverage. -/
theorem apply_store_ops_ok (ops : List StoreOp) (m : SimulationManager)
    (h : locks_cover m) :
    ∃ m2, apply_store_ops m ops = .ok m2 ∧ locks_cover m2 := by
  induction ops generalizing m with
  | nil => exact ⟨m, rfl, h⟩
  | cons op rest ih =>
    obtain ⟨m2, hop, h2⟩ := apply_store_op_ok m h op
    obtain ⟨m3, hops, h3⟩ := ih m2 h2
    exact ⟨m3, by simp [apply_store_ops, hop, hops], h3⟩

/-- The single-term expansion of the weighted score loop. -/
theorem raw_approval_score_eq (args : ScoreArgs) :
    raw_approval_score args
      = 50 + ((args "petitioner_argument_quality").getD 5 - 5) * (25/100) * 10
           + ((args "opposition_strength").getD 5 - 5) * (-(20/100)) * 10
           + ((args "council_receptiveness").getD 5 - 5) * (20/100) * 10
           + ((args "economic_benefit_clarity").getD 5 - 5) * (15/100) * 10
           + ((args "environmental_mitigation").getD 5 - 5) * (10/100) * 10
           + ((args "community_benefit_offered").getD 5 - 5) * (10/100) * 10 := rfl

/-- C1 (counterexample): the claim says a parsed analysis object missing the
score field makes the tier fail and the chain proceed; the code instead
defaults the score to 50 (`data.get("approval_score", 50)`), so the tier
succeeds and the chain stops there, never reaching a second tier carrying
score 62. -/
theorem analysis_missing_score_succeeds :
    parse_analysis_response (some (.jobj [])) ≠ none ∧
    parse_analysis_response (some (.jobj []))
      = some { approval_score := 50, approval_label := "Uncertain", approval_reasoning := "",
               key_arguments := [], recommended_rebuttals := [],
               strongest_opposition_point := "", weakest_opposition_point := "",
               overall_assessment := "" } ∧
    analysis_fallback_chain (some (.jobj []))
        (some (.jobj [("approval_score", JValue.jnum 62)]))
      = some { approval_score := 50, approval_label := "Uncertain", approval_reasoning := "",
               key_arguments := [], recommended_rebuttals := [],
               strongest_opposition_point := "", weakest_opposition_point := "",
               overall_assessment := "" } := by
  refine ⟨?_, ?_, ?_⟩ <;> decide

/-- C1 (amended): a tier whose parsed object carries a non-numeric score fails
and the chain proceeds to the next tier; a parsed object missing the score
field succeeds with the default score 50, label "Uncertain" and empty lists;
a parsed object whose only field is the numeric score 62 succeeds with score
62, label "Uncertain" and empty argument and rebuttal lists. -/
theorem analysis_tier_validity (v : JValue) (t2 : Option JValue)
    (hv : pyFloat v = none) :
    parse_analysis_response (some (.jobj [("approval_score", v)])) = none ∧
    analysis_fallback_chain (some (.jobj [("approval_score", v)])) t2
      = parse_analysis_response t2 ∧
    parse_analysis_response (some (.jobj []))
      = some { approval_score := 50, approval_label := "Uncertain", approval_reasoning := "",
               key_arguments := [], recommended_rebuttals := [],
               strongest_opposition_point := "", weakest_opposition_point := "",
               overall_assessment := "" } ∧
    parse_analysis_response (some (.jobj [("approval_score", JValue.jnum 62)]))
      = some { approval_score := 62, approval_label := "Uncertain", approval_reasoning := "",
               key_arguments := [], recommended_rebuttals := [],
               strongest_opposition_point := "", weakest_opposition_point := "",
               overall_assessment := "" } := by
  have h1 : parse_analysis_response (some (.jobj [("approval_score", v)])) = none := by
    simp [parse_analysis_response, parse_analysis_data, jGetD, jGet, pyIter, hv]
  refine ⟨h1, ?_, by decide, by decide⟩
  unfold analysis_fallback_chain
  rw [h1]

/-- C1 (witness): the amended tier behaviour evaluated at a `null` score and a
second tier carrying score 62. -/
theorem analysis_tier_validity_witness :
    parse_analysis_response (some (.jobj [("approval_score", JValue.jnull)])) = none ∧
    analysis_fallback_chain (some (.jobj [("approval_score", JValue.jnull)]))
        (some (.jobj [("approval_score", JValue.jnum 62)]))
      = parse_analysis_response (some (.jobj [("approval_score", JValue.jnum 62)])) ∧
    parse_analysis_response (some (.jobj []))
      = some { approval_score := 50, approval_label := "Uncertain", approval_reasoning := "",
               key_arguments := [], recommended_rebuttals := [],
               strongest_opposition_point := "", weakest_opposition_point := "",
               overall_assessment := "" } ∧
    parse_analysis_response (some (.jobj [("approval_score", JValue.jnum 62)]))
      = some { approval_score := 62, approval_label := "Uncertain", approval_reasoning := "",
               key_arguments := [], recommended_rebuttals := [],
               strongest_opposition_point := "", weakest_opposition_point := "",
               overall_assessment := "" } :=
  analysis_tier_validity JValue.jnull
    (some (.jobj [("approval_score", JValue.jnum 62)])) rfl

/-- C2: a session whose persona list holds exactly 1 moderator, 1 petitioner,
3 residents and 1 council member runs to exactly 12 turns in phase order —
moderator and petitioner in opening, the residents in generation order in
public comment, the petitioner in rebuttal, the fixed council/petitioner
alternation in council-qa, and moderator then council member in deliberation —
and the simulation's event stream then carries at most one analysis event and
exactly one complete event. -/
theorem full_cast_run_shape (gen : GenService) (input : SimulationInput)
    (personas : List Persona)
    (hm : role_count personas .moderator = 1)
    (hp : role_count personas .petitioner = 1)
    (hr : role_count personas .resident = 3)
    (hc : role_count personas .council_member = 1) :
    ∃ moderator petitioner council r1 r2 r3 : Persona,
      get_persona_by_role personas .moderator = some moderator ∧
      get_persona_by_role personas .petitioner = some petitioner ∧
      get_persona_by_role personas .council_member = some council ∧
      get_personas_by_role personas .resident = [r1, r2, r3] ∧
      (run_debate gen personas input).records.map turn_sig =
        [(.opening, moderator), (.opening, petitioner),
         (.public_comment, r1), (.public_comment, r2), (.public_comment, r3),
         (.rebuttal, petitioner),
         (.council_qa, council), (.council_qa, petitioner),
         (.council_qa, council), (.council_qa, petitioner),
         (.deliberation, moderator), (.deliberation, council)] ∧
      (run_debate gen personas input).transcript.turns.length = 12 ∧
      ∀ tier1 tier2,
        (run_simulation_events gen personas input tier1 tier2).countP is_analysis_event ≤ 1 ∧
        (run_simulation_events gen personas input tier1 tier2).countP is_complete_event = 1 := by
  obtain ⟨moderator, hmf, hmr⟩ := role_count_one_find personas .moderator (by omega)
  obtain ⟨petitioner, hpf, hpr⟩ := role_count_one_find personas .petitioner (by omega)
  obtain ⟨council, hcf, hcr⟩ := role_count_one_find personas .council_member (by omega)
  have hlen3 : (get_personas_by_role personas .resident).length = 3 := by
    rw [role_count_filter_length]; exact hr
  obtain ⟨r1, r2, r3, hres⟩ := List.length_eq_three.1 hlen3
  refine ⟨moderator, petitioner, council, r1, r2, r3, hmf, hpf, hcf, hres, ?_, ?_, ?_⟩
  · rw [run_debate_records_map]
    simp [run_order, opening_plan, public_comment_plan, rebuttal_plan, council_qa_plan,
      deliberation_plan, hmf, hpf, hcf, hres]
  · have hturns := (run_debate_context_faithful gen personas input).1
    have hsig := run_debate_records_map gen personas input
    have hlen : (run_debate gen personas input).records.length = 12 := by
      have := congrArg List.length hsig
      simp only [List.length_map] at this
      rw [this]
      simp [run_order, opening_plan, public_comment_plan, rebuttal_plan, council_qa_plan,
        deliberation_plan, hmf, hpf, hcf, hres]
    rw [hturns, List.length_map, hlen]
  · intro tier1 tier2
    have hintro : (personas.map (fun p => StreamEvent.persona_intro p.id)).countP
        is_analysis_event = 0 := by
      rw [List.countP_eq_zero]
      intro e he
      obtain ⟨q, _, rfl⟩ := List.mem_map.1 he
      simp [is_analysis_event]
    have hintro2 : (personas.map (fun p => StreamEvent.persona_intro p.id)).countP
        is_complete_event = 0 := by
      rw [List.countP_eq_zero]
      intro e he
      obtain ⟨q, _, rfl⟩ := List.mem_map.1 he
      simp [is_complete_event]
    have hdeb : ((run_debate gen personas input).events).countP is_analysis_event = 0 := by
      rw [List.countP_eq_zero]
      intro e he
      have := run_debate_events_run_only gen personas input e he
      cases e <;> simp [is_run_event, is_analysis_event] at this ⊢
    have hdeb2 : ((run_debate gen personas input).events).countP is_complete_event = 0 := by
      rw [List.countP_eq_zero]
      intro e he
      have := run_debate_events_run_only gen personas input e he
      cases e <;> simp [is_run_event, is_complete_event] at this ⊢
    unfold run_simulation_events
    constructor
    · cases hch : analysis_fallback_chain tier1 tier2 <;>
        simp [List.countP_append, hintro, hdeb, is_analysis_event, is_complete_event,
          List.countP_cons]
    · cases hch : analysis_fallback_chain tier1 tier2 <;>
        simp [List.countP_append, hintro2, hdeb2, is_analysis_event, is_complete_event,
          List.countP_cons]

/-- C2 (witness): the full-cast run shape evaluated on a concrete six-persona
cast. -/
theorem full_cast_run_shape_witness :
    ∃ moderator petitioner council r1 r2 r3 : Persona,
      get_persona_by_role sample_full_cast .moderator = some moderator ∧
      get_persona_by_role sample_full_cast .petitioner = some petitioner ∧
      get_persona_by_role sample_full_cast .council_member = some council ∧
      get_personas_by_role sample_full_cast .resident = [r1, r2, r3] ∧
      (run_debate sample_gen sample_full_cast sample_input).records.map turn_sig =
        [(.opening, moderator), (.opening, petitioner),
         (.public_comment, r1), (.public_comment, r2), (.public_comment, r3),
         (.rebuttal, petitioner),
         (.council_qa, council), (.council_qa, petitioner),
         (.council_qa, council), (.council_qa, petitioner),
         (.deliberation, moderator), (.deliberation, council)] ∧
      (run_debate sample_gen sample_full_cast sample_input).transcript.turns.length = 12 ∧
      ∀ tier1 tier2,
        (run_simulation_events sample_gen sample_full_cast sample_input tier1 tier2).countP
          is_analysis_event ≤ 1 ∧
        (run_simulation_events sample_gen sample_full_cast sample_input tier1 tier2).countP
          is_complete_event = 1 :=
  full_cast_run_shape sample_gen sample_input sample_full_cast (by decide) (by decide)
    (by decide) (by decide)

/-- C3: with a council-member persona present the council-qa phase appends
exactly 4 turns in the fixed order council, petitioner, council, petitioner;
the petitioner sub-turns are omitted exactly when no petitioner exists (2
turns); without a council member the phase appends no turns at all. -/
theorem council_qa_turn_structure (gen : GenService) (personas : List Persona)
    (st : RunState) :
    ((∃ q ∈ personas, q.role = PersonaRole.council_member) →
      ∃ council, get_persona_by_role personas .council_member = some council ∧
        council.role = .council_member ∧
        ((∃ q ∈ personas, q.role = PersonaRole.petitioner) →
          ∃ petitioner, get_persona_by_role personas .petitioner = some petitioner ∧
            petitioner.role = .petitioner ∧
            (run_council_qa_phase gen personas st).records.map turn_sig
              = st.records.map turn_sig ++
                  [(.council_qa, council), (.council_qa, petitioner),
                   (.council_qa, council), (.council_qa, petitioner)]) ∧
        ((¬ ∃ q ∈ personas, q.role = PersonaRole.petitioner) →
          (run_council_qa_phase gen personas st).records.map turn_sig
            = st.records.map turn_sig ++ [(.council_qa, council), (.council_qa, council)])) ∧
    ((¬ ∃ q ∈ personas, q.role = PersonaRole.council_member) →
      (run_council_qa_phase gen personas st).records = st.records) := by
  constructor
  · intro hex
    obtain ⟨council, hcf, hcr⟩ := exists_role_find personas .council_member hex
    refine ⟨council, hcf, hcr, ?_, ?_⟩
    · intro hpex
      obtain ⟨petitioner, hpf, hpr⟩ := exists_role_find personas .petitioner hpex
      refine ⟨petitioner, hpf, hpr, ?_⟩
      rw [run_council_qa_phase_eq, run_seq_records_map, push_phase_records]
      simp [council_qa_plan, hcf, hpf]
    · intro hpnone
      have hpf := not_exists_role_find personas .petitioner hpnone
      rw [run_council_qa_phase_eq, run_seq_records_map, push_phase_records]
      simp [council_qa_plan, hcf, hpf]
  · intro hnone
    have hcf := not_exists_role_find personas .council_member hnone
    simp [run_council_qa_phase, hcf, push_phase]

/-- C3 (witness): the council-qa structure evaluated on the concrete full
cast, which holds both a council member and a petitioner. -/
theorem council_qa_turn_structure_witness :
    ∃ council, get_persona_by_role sample_full_cast .council_member = some council ∧
      council.role = .council_member ∧
      ((∃ q ∈ sample_full_cast, q.role = PersonaRole.petitioner) →
        ∃ petitioner, get_persona_by_role sample_full_cast .petitioner = some petitioner ∧
          petitioner.role = .petitioner ∧
          (run_council_qa_phase sample_gen sample_full_cast
              (initial_run_state sample_input)).records.map turn_sig
            = (initial_run_state sample_input).records.map turn_sig ++
                [(.council_qa, council), (.council_qa, petitioner),
                 (.council_qa, council), (.council_qa, petitioner)]) ∧
      ((¬ ∃ q ∈ sample_full_cast, q.role = PersonaRole.petitioner) →
        (run_council_qa_phase sample_gen sample_full_cast
            (initial_run_state sample_input)).records.map turn_sig
          = (initial_run_state sample_input).records.map turn_sig ++
              [(.council_qa, council), (.council_qa, council)]) :=
  (council_qa_turn_structure sample_gen sample_full_cast (initial_run_state sample_input)).1
    ⟨sample_council, by decide, rfl⟩

/-- C4: a prior turn rendered into a later turn's context with truncation
limit 300 appears unmodified when its content has at most 300 characters, and
otherwise is cut to exactly 300 characters, the last three being the ellipsis
marker appended to the first 297 characters of the content. -/
theorem prior_turn_truncation (turn : DebateTurn) :
    (turn.content.length ≤ 300 →
      render_turn_line turn
        = "  " ++ turn.persona_name ++ " (" ++ turn.persona_role ++ "): " ++ turn.content) ∧
    (300 < turn.content.length →
      (Transcript.truncate turn.content 300).length = 300 ∧
      (∃ pre : List Char, pre.length = 297 ∧
          Transcript.truncate turn.content 300 = String.mk pre ++ "...") ∧
      render_turn_line turn
        = "  " ++ turn.persona_name ++ " (" ++ turn.persona_role ++ "): " ++
            Transcript.truncate turn.content 300) := by
  constructor
  · intro h
    unfold render_turn_line Transcript.truncate
    rw [if_pos h]
  · intro h
    have htr : Transcript.truncate turn.content 300
        = String.mk (turn.content.data.take 297) ++ "..." := by
      unfold Transcript.truncate
      rw [if_neg (by omega)]
    have htake : (turn.content.data.take 297).length = 297 := by
      rw [List.length_take]
      have hdatalen : turn.content.data.length = turn.content.length := rfl
      omega
    refine ⟨?_, ⟨turn.content.data.take 297, htake, htr⟩, rfl⟩
    rw [htr, String.length_append]
    have hmk : (String.mk (turn.content.data.take 297)).length = 297 := htake
    rw [hmk]
    rfl

/-- C4 (witness): truncation evaluated on a 100-character and a
1000-character turn content. -/
theorem prior_turn_truncation_witness :
    (render_turn_line sample_short_turn
      = "  " ++ sample_short_turn.persona_name ++ " (" ++ sample_short_turn.persona_role
          ++ "): " ++ sample_short_turn.content) ∧
    ((Transcript.truncate sample_long_turn.content 300).length = 300 ∧
      (∃ pre : List Char, pre.length = 297 ∧
          Transcript.truncate sample_long_turn.content 300 = String.mk pre ++ "...") ∧
      render_turn_line sample_long_turn
        = "  " ++ sample_long_turn.persona_name ++ " (" ++ sample_long_turn.persona_role
            ++ "): " ++ Transcript.truncate sample_long_turn.content 300) :=
  ⟨(prior_turn_truncation sample_short_turn).1
      (by show (List.replicate 100 'a').length ≤ 300; rw [List.length_replicate]; omega),
   (prior_turn_truncation sample_long_turn).2
      (by show 300 < (List.replicate 1000 'b').length; rw [List.length_replicate]; omega)⟩

/-- C5: start-run is idempotent for a session with an active run — calling it
while the registered task is active returns the manager unchanged and spawns
nothing — and two start-run calls in quick succession from a no-task (or
done-task) state leave exactly one active task registered for the id, the
second call being a no-op. -/
theorem start_run_idempotent (m : SimulationManager) (id : String) :
    (m.get_task id = some .active → start_run m id = (m, false)) ∧
    ((m.get_task id = none ∨ m.get_task id = some .done) →
      (start_run m id).1.get_task id = some .active ∧
      (start_run m id).2 = true ∧
      start_run (start_run m id).1 id = ((start_run m id).1, false)) := by
  constructor
  · exact start_run_noop m id
  · intro h
    have h1 : (start_run m id).1 = m.register_task id .active := by
      rcases h with h | h <;> simp [start_run, h]
    have h2 : (start_run m id).2 = true := by
      rcases h with h | h <;> simp [start_run, h]
    have h3 : (start_run m id).1.get_task id = some .active := by
      rw [h1]; exact get_task_register_self m id .active
    exact ⟨h3, h2, start_run_noop _ id h3⟩

/-- C5 (witness): two quick start-run calls on a fresh manager. -/
theorem start_run_idempotent_witness :
    (start_run SimulationManager.empty "sim-1").1.get_task "sim-1" = some .active ∧
    (start_run SimulationManager.empty "sim-1").2 = true ∧
    start_run (start_run SimulationManager.empty "sim-1").1 "sim-1"
      = ((start_run SimulationManager.empty "sim-1").1, false) :=
  (start_run_idempotent SimulationManager.empty "sim-1").2 (Or.inl rfl)

/-- C6: the context payload built for turn n is a function of only the turns
completed before it — it equals the context builder applied to the transcript
holding exactly the first n−1 turns — and the session transcript holds exactly
the completed turns, each appended only after its own context was built. -/
theorem turn_context_uses_only_prior_turns (gen : GenService) (personas : List Persona)
    (input : SimulationInput) (i : Nat)
    (h : i < (run_debate gen personas input).records.length) :
    ((run_debate gen personas input).records.getD i dummy_turn_record).messages
      = (Transcript.build_context_for_turn
          (prefix_transcript input
            (((run_debate gen personas input).records.take i).map (fun r => r.turn))
            (((run_debate gen personas input).records.getD i dummy_turn_record).phase))
          (((run_debate gen personas input).records.getD i dummy_turn_record).persona)
          (((run_debate gen personas input).records.getD i dummy_turn_record).phase)).1
    ∧ (run_debate gen personas input).transcript.turns
        = (run_debate gen personas input).records.map (fun r => r.turn) := by
  obtain ⟨ht, _, _, hmsg⟩ := run_debate_context_faithful gen personas input
  exact ⟨hmsg i h, ht⟩

/-- C6 (witness): the first turn of a one-moderator run was built from the
empty prior history. -/
theorem turn_context_uses_only_prior_turns_witness :
    ((run_debate sample_gen [sample_moderator] sample_input).records.getD 0
        dummy_turn_record).messages
      = (Transcript.build_context_for_turn
          (prefix_transcript sample_input
            (((run_debate sample_gen [sample_moderator] sample_input).records.take 0).map
              (fun r => r.turn))
            (((run_debate sample_gen [sample_moderator] sample_input).records.getD 0
                dummy_turn_record).phase))
          (((run_debate sample_gen [sample_moderator] sample_input).records.getD 0
              dummy_turn_record).persona)
          (((run_debate sample_gen [sample_moderator] sample_input).records.getD 0
              dummy_turn_record).phase)).1
    ∧ (run_debate sample_gen [sample_moderator] sample_input).transcript.turns
        = (run_debate sample_gen [sample_moderator] sample_input).records.map
            (fun r => r.turn) :=
  turn_context_uses_only_prior_turns sample_gen [sample_moderator] sample_input 0 (by decide)

/-- C7: the scoring helper computes 50 plus, per factor, (value − 5) × weight
× 10 with weights +0.25, −0.20, +0.20, +0.15, +0.10 and +0.10, the result
clamped to the interval [0, 100]. -/
theorem approval_score_formula (args : ScoreArgs) :
    compute_approval_score args
      = min 100 (max 0
          (50 + ((args "petitioner_argument_quality").getD 5 - 5) * (25/100) * 10
              + ((args "opposition_strength").getD 5 - 5) * (-(20/100)) * 10
              + ((args "council_receptiveness").getD 5 - 5) * (20/100) * 10
              + ((args "economic_benefit_clarity").getD 5 - 5) * (15/100) * 10
              + ((args "environmental_mitigation").getD 5 - 5) * (10/100) * 10
              + ((args "community_benefit_offered").getD 5 - 5) * (10/100) * 10)) := by
  unfold compute_approval_score
  rw [raw_approval_score_eq, max_min_distrib_left]
  norm_num

/-- C8: every reachable store state covers each stored session with a lock
created together with it, so every mutating operation that finds the session
state also finds its lock and no operation sequence ever raises the lock
lookup error. -/
theorem store_mutations_find_lock (ops : List StoreOp) :
    ∃ m, apply_store_ops SimulationManager.empty ops = .ok m ∧ locks_cover m := by
  apply apply_store_ops_ok
  intro id st hlk
  simp [SimulationManager.empty, lookup_entry] at hlk

/-- C9: a factor omitted from the scoring-tool arguments is treated as exactly
5 — replacing an absent factor by an explicit 5 leaves the raw score unchanged
— and when every supplied factor lies in [0, 10] the unclamped raw score
already lies in [0, 100], so the clamp returns it unchanged. -/
theorem approval_score_defaults_and_clamp (args : ScoreArgs) :
    (∀ k, args k = none →
      raw_approval_score args
        = raw_approval_score (fun j => if j = k then some 5 else args j)) ∧
    ((∀ k v, args k = some v → 0 ≤ v ∧ v ≤ 10) →
      (0 ≤ raw_approval_score args ∧ raw_approval_score args ≤ 100) ∧
      compute_approval_score args = raw_approval_score args) := by
  constructor
  · intro k hk
    have hupd : ∀ j, ((if j = k then some (5:ℚ) else args j).getD 5) = (args j).getD 5 := by
      intro j
      by_cases hj : j = k
      · subst hj; simp [hk]
      · simp [hj]
    rw [raw_approval_score_eq, raw_approval_score_eq]
    simp only [hupd]
  · intro hbound
    have hterm : ∀ key, 0 ≤ (args key).getD 5 ∧ (args key).getD 5 ≤ 10 := by
      intro key
      cases hak : args key with
      | none => simp only [Option.getD_none]; norm_num
      | some v => simpa using hbound key v hak
    obtain ⟨a0, a1⟩ := hterm "petitioner_argument_quality"
    obtain ⟨b0, b1⟩ := hterm "opposition_strength"
    obtain ⟨c0, c1⟩ := hterm "council_receptiveness"
    obtain ⟨d0, d1⟩ := hterm "economic_benefit_clarity"
    obtain ⟨e0, e1⟩ := hterm "environmental_mitigation"
    obtain ⟨f0, f1⟩ := hterm "community_benefit_offered"
    have hb : 0 ≤ raw_approval_score args ∧ raw_approval_score args ≤ 100 := by
      rw [raw_approval_score_eq]
      constructor <;> nlinarith
    refine ⟨hb, ?_⟩
    unfold compute_approval_score
    rw [min_eq_right hb.2, max_eq_right hb.1]

/-- C9 (witness): the defaults and the identity clamp evaluated on arguments
supplying only one factor. -/
theorem approval_score_defaults_and_clamp_witness :
    (raw_approval_score sample_score_args
      = raw_approval_score
          (fun j => if j = "opposition_strength" then some 5 else sample_score_args j)) ∧
    ((0 ≤ raw_approval_score sample_score_args ∧ raw_approval_score sample_score_args ≤ 100) ∧
      compute_approval_score sample_score_args = raw_approval_score sample_score_args) :=
  ⟨(approval_score_defaults_and_clamp sample_score_args).1 "opposition_strength" rfl,
   (approval_score_defaults_and_clamp sample_score_args).2 (by
      intro k v hkv
      by_cases hk : k = "petitioner_argument_quality"
      · rw [hk] at hkv
        simp [sample_score_args] at hkv
        subst hkv
        norm_num
      · simp [sample_score_args, hk] at hkv)⟩

/-- C10: a run over an empty persona list completes normally with zero turns
while still emitting the five phase-change notifications in the fixed phase
order with their descriptions. -/
theorem empty_cast_run (gen : GenService) (input : SimulationInput) :
    (run_debate gen [] input).transcript.turns = [] ∧
    (run_debate gen [] input).records = [] ∧
    phase_changes (run_debate gen [] input).events
      = [(.opening, "The meeting is called to order"),
         (.public_comment, "The floor is open for public comment"),
         (.rebuttal, "The petitioner may now respond to public comments"),
         (.council_qa, "Council members may now ask questions"),
         (.deliberation, "The council will now deliberate")] :=
  ⟨rfl, rfl, rfl⟩
